import Mathlib

/-!
Verification of the fitness-tracker module (`homework.py`).

Numbers are modelled as rationals (`ℚ`): exact arithmetic over the
decimal constants of the source.  The Python class hierarchy
(`Training` base with subclasses `Running`, `SportsWalking`,
`Swimming`) is modelled as an inductive type with one constructor per
class, the base class included, since a bare `Training` instance is
constructible in Python.  Dynamically dispatched methods become
functions matching on the constructor.  Python exceptions of the
dispatcher become an `Except` error value.
-/

/-- The message record built by `InfoMessage.__init__`: a workout type
display name plus the four numeric fields. -/
structure InfoMessage where
  training_type : String
  duration : ℚ
  distance : ℚ
  speed : ℚ
  calories : ℚ
deriving DecidableEq, Repr

/-- A `Training` object: one constructor per class of the source.
`base` is a bare `Training(action, duration, weight)` instance;
`running`, `sportsWalking` and `swimming` carry the extra fields their
`__init__` stores (`height` for `SportsWalking`, `length_pool` and
`count_pool` for `Swimming`). -/
inductive Training where
  | base (action duration weight : ℚ)
  | running (action duration weight : ℚ)
  | sportsWalking (action duration weight height : ℚ)
  | swimming (action duration weight length_pool count_pool : ℚ)
deriving DecidableEq, Repr

namespace Training

/-- Class constant `Training.M_IN_KM = 1000`, shared by all classes. -/
def M_IN_KM : ℚ := 1000

/-- Class constant `Training.MIN_IN_H = 60`. -/
def MIN_IN_H : ℚ := 60

/-- Attribute `self.action`. -/
def action : Training → ℚ
  | .base a _ _ => a
  | .running a _ _ => a
  | .sportsWalking a _ _ _ => a
  | .swimming a _ _ _ _ => a

/-- Attribute `self.duration`. -/
def duration : Training → ℚ
  | .base _ d _ => d
  | .running _ d _ => d
  | .sportsWalking _ d _ _ => d
  | .swimming _ d _ _ _ => d

/-- Attribute `self.weight`. -/
def weight : Training → ℚ
  | .base _ _ w => w
  | .running _ _ w => w
  | .sportsWalking _ _ w _ => w
  | .swimming _ _ w _ _ => w

/-- Class attribute `LEN_STEP`: `0.65` on the base (inherited by
`Running` and `SportsWalking`), overridden to `1.38` on `Swimming`. -/
def LEN_STEP : Training → ℚ
  | .swimming _ _ _ _ _ => 1.38
  | _ => 0.65

/-- `Training.get_distance`: `self.action * self.LEN_STEP / self.M_IN_KM`.
Inherited unchanged by every subclass. -/
def get_distance (t : Training) : ℚ :=
  t.action * t.LEN_STEP / M_IN_KM

/-- `get_mean_speed`: the base rule `self.get_distance() / self.duration`,
overridden by `Swimming.get_mean_speed` to
`self.length_pool * self.count_pool / self.M_IN_KM / self.duration`. -/
def get_mean_speed : Training → ℚ
  | .swimming _ d _ lp cp => lp * cp / M_IN_KM / d
  | t => t.get_distance / t.duration

/-- Class constant `Running.CALORIES_MEAN_SPEED_MULTIPLIER = 18`. -/
def runningCALORIES_MEAN_SPEED_MULTIPLIER : ℚ := 18

/-- Class constant `Running.CALORIES_MEAN_SPEED_SHIFT = 1.79`. -/
def runningCALORIES_MEAN_SPEED_SHIFT : ℚ := 1.79

/-- Class constant `SportsWalking.CALORIES_MEAN_SPEED_MULTIPLIER = 0.035`
(the one `SportsWalking.get_spent_calories` actually reads). -/
def walkingCALORIES_MEAN_SPEED_MULTIPLIER : ℚ := 0.035

/-- Class constant `SportsWalking.CALORIES_MEAN_SPEED_SHIFT = 0.029`. -/
def walkingCALORIES_MEAN_SPEED_SHIFT : ℚ := 0.029

/-- Class constant `SportsWalking.KMH_IN_MSEC = 0.278`. -/
def KMH_IN_MSEC : ℚ := 0.278

/-- Class constant `SportsWalking.CM_IN_M = 100`. -/
def CM_IN_M : ℚ := 100

/-- Class constant `Swimming.CALORIES_MEAN_SPEED_MULTIPLIER = 2`. -/
def swimmingCALORIES_MEAN_SPEED_MULTIPLIER : ℚ := 2

/-- Class constant `Swimming.CALORIES_MEAN_SPEED_SHIFT = 1.1`. -/
def swimmingCALORIES_MEAN_SPEED_SHIFT : ℚ :=  1.1

/-- Dynamically dispatched `get_spent_calories`.  The base method body
is `pass`, so in Python the call returns `None` normally — no exception
is raised; this is modelled by `Option ℚ` with `none` for the base.
Each subclass overrides it with its formula, transcribed from the
source with the same constant names and the same call structure
(`self.get_mean_speed()` is the dispatched mean speed of the same
object). -/
def get_spent_calories : Training → Option ℚ
  | .base _ _ _ => none
  | .running a d w =>
      some (((runningCALORIES_MEAN_SPEED_MULTIPLIER
                * get_mean_speed (.running a d w)
                + runningCALORIES_MEAN_SPEED_SHIFT)
              * w / M_IN_KM)
            * d * MIN_IN_H)
  | .sportsWalking a d w h =>
      some ((walkingCALORIES_MEAN_SPEED_MULTIPLIER * w
              + ((get_mean_speed (.sportsWalking a d w h) * KMH_IN_MSEC) ^ 2
                  / (h / CM_IN_M))
                * walkingCALORIES_MEAN_SPEED_SHIFT * w)
            * d * MIN_IN_H)
  | .swimming a d w lp cp =>
      some ((get_mean_speed (.swimming a d w lp cp)
              + swimmingCALORIES_MEAN_SPEED_SHIFT)
            * swimmingCALORIES_MEAN_SPEED_MULTIPLIER * w * d)

/-- `self.__class__.__name__`, the display label placed in the
`InfoMessage` by `show_training_info`. -/
def className : Training → String
  | .base _ _ _ => "Training"
  | .running _ _ _ => "Running"
  | .sportsWalking _ _ _ _ => "SportsWalking"
  | .swimming _ _ _ _ _ => "Swimming"

/-- `Training.show_training_info`: builds an `InfoMessage` from the
class name, the duration and the three computed metrics.  On a bare
base instance `get_spent_calories()` returns `None`, which cannot fill
the rational `calories` field, so the result is `none` there. -/
def show_training_info (t : Training) : Option InfoMessage :=
  match t.get_spent_calories with
  | some c => some ⟨t.className, t.duration, t.get_distance, t.get_mean_speed, c⟩
  | none => none

end Training

/-- The Python exceptions `read_package` can raise: `KeyError` from the
dictionary lookup `action_classes[workout_type]` (it carries the
missing key), and `TypeError` from the positional-argument call
`action_classes[workout_type](*data)` when the length of `data` does
not match the parameter count of the selected `__init__`. -/
inductive PyError where
  | keyError (key : String)
  | typeError
deriving DecidableEq, Repr

/-- `read_package(workout_type, data)`: looks `workout_type` up in
`{'SWM': Swimming, 'RUN': Running, 'WLK': SportsWalking}` — an unknown
key raises `KeyError(workout_type)` — and calls the selected class on
the unpacked `data`.  Python binds the elements positionally: the call
succeeds exactly when the length of `data` equals the parameter count
of the `__init__` (5 for `Swimming`, 3 for `Running`, 4 for
`SportsWalking`) and raises `TypeError` otherwise; there is no explicit
arity validation in the source. -/
def read_package (workout_type : String) (data : List ℚ) : Except PyError Training :=
  if workout_type = "SWM" then
    match data with
    | [a, d, w, lp, cp] => .ok (.swimming a d w lp cp)
    | _ => .error .typeError
  else if workout_type = "RUN" then
    match data with
    | [a, d, w] => .ok (.running a d w)
    | _ => .error .typeError
  else if workout_type = "WLK" then
    match data with
    | [a, d, w, h] => .ok (.sportsWalking a d w h)
    | _ => .error .typeError
  else
    .error (.keyError workout_type)

/-- Decimal digit list of a natural number, most significant first
(`natDigitsAux n n` renders `n`; the first argument is fuel, always
sufficient since a number never has more digits than its value). -/
def natDigitsAux : Nat → Nat → List Char
  | 0, n => [Nat.digitChar n]
  | fuel + 1, n =>
      if n < 10 then [Nat.digitChar n]
      else natDigitsAux fuel (n / 10) ++ [Nat.digitChar (n % 10)]

/-- Decimal rendering of a natural number (`"0"` for zero). -/
def natDigits (n : Nat) : List Char := natDigitsAux n n

/-- Round a rational to the nearest integer, ties to even — the
rounding Python's fixed-point float formatting applies. -/
def roundHalfEven (q : ℚ) : ℤ :=
  if q - ⌊q⌋ < 1 / 2 then ⌊q⌋
  else if 1 / 2 < q - ⌊q⌋ then ⌊q⌋ + 1
  else if ⌊q⌋ % 2 = 0 then ⌊q⌋ else ⌊q⌋ + 1

/-- Model of Python's fixed-point format `f'\x7bx:.3f\x7d'` on the
exact rational value: round `x * 1000` half-to-even to an integer and
print it with the decimal point re-inserted, the fractional part padded
to exactly three digits.  (The sign of a negative value that rounds to
zero is dropped; no claim touches that corner.) -/
def fix3 (q : ℚ) : String :=
  let n : ℤ := roundHalfEven (q * 1000)
  let m : Nat := n.natAbs
  (if n < 0 then "-" else "")
    ++ String.mk (natDigits (m / 1000))
    ++ "."
    ++ String.mk [Nat.digitChar (m / 100 % 10),
                  Nat.digitChar (m / 10 % 10),
                  Nat.digitChar (m % 10)]

/-- `InfoMessage.get_message`: the fixed template of the source,
each numeric field rendered with `:.3f`. -/
def InfoMessage.get_message (m : InfoMessage) : String :=
  "Тип тренировки: " ++ m.training_type
    ++ "; Длительность: " ++ fix3 m.duration
    ++ " ч.; Дистанция: " ++ fix3 m.distance
    ++ " км; Ср. скорость: " ++ fix3 m.speed
    ++ " км/ч; Потрачено ккал: " ++ fix3 m.calories ++ "."

/-- A string whose suffix is a decimal point followed by exactly three
digits, with no other decimal point before it. -/
def has3Decimals (s : String) : Prop :=
  ∃ (pre : List Char) (a b c : Char),
    s.data = pre ++ ['.', a, b, c] ∧
    a.isDigit = true ∧ b.isDigit = true ∧ c.isDigit = true ∧
    '.' ∉ pre

lemma digitChar_isDigit {r : Nat} (h : r < 10) : (Nat.digitChar r).isDigit = true := by
  interval_cases r <;> decide

lemma natDigitsAux_isDigit :
    ∀ (fuel n : Nat), n ≤ fuel → ∀ c ∈ natDigitsAux fuel n, c.isDigit = true := by
  intro fuel
  induction fuel with
  | zero =>
      intro n hn c hc
      have hn0 : n = 0 := Nat.le_zero.mp hn
      subst hn0
      simp only [natDigitsAux, List.mem_singleton] at hc
      subst hc
      decide
  | succ fuel ih =>
      intro n hn c hc
      simp only [natDigitsAux] at hc
      by_cases h10 : n < 10
      · simp only [if_pos h10, List.mem_singleton] at hc
        subst hc
        exact digitChar_isDigit h10
      · simp only [if_neg h10, List.mem_append, List.mem_singleton] at hc
        rcases hc with hc | hc
        · have hdiv : n / 10 ≤ fuel := by
            have h1 : n / 10 < n := Nat.div_lt_self (by omega) (by omega)
            omega
          exact ih (n / 10) hdiv c hc
        · subst hc
          exact digitChar_isDigit (Nat.mod_lt n (by omega))

lemma natDigits_isDigit (n : Nat) : ∀ c ∈ natDigits n, c.isDigit = true :=
  natDigitsAux_isDigit n n le_rfl

lemma fix3_has3Decimals (q : ℚ) : has3Decimals (fix3 q) := by
  refine ⟨((if roundHalfEven (q * 1000) < 0 then "-" else "") : String).data
           ++ natDigits ((roundHalfEven (q * 1000)).natAbs / 1000),
          Nat.digitChar ((roundHalfEven (q * 1000)).natAbs / 100 % 10),
          Nat.digitChar ((roundHalfEven (q * 1000)).natAbs / 10 % 10),
          Nat.digitChar ((roundHalfEven (q * 1000)).natAbs % 10),
          ?_, ?_, ?_, ?_, ?_⟩
  · simp only [fix3, String.data_append, List.append_assoc]
    rfl
  · exact digitChar_isDigit (Nat.mod_lt _ (by omega))
  · exact digitChar_isDigit (Nat.mod_lt _ (by omega))
  · exact digitChar_isDigit (Nat.mod_lt _ (by omega))
  · intro hmem
    rcases List.mem_append.mp hmem with hs | hd
    · by_cases hneg : roundHalfEven (q * 1000) < 0
      · rw [if_pos hneg] at hs
        exact absurd hs (by decide)
      · rw [if_neg hneg] at hs
        exact absurd hs (by decide)
    · have := natDigits_isDigit _ _ hd
      simp [Char.isDigit] at this

lemma get_message_walking_data (m : InfoMessage) (hm : m.training_type = "SportsWalking") :
    ∃ rest : List Char,
      m.get_message.data = ("Тип тренировки: SportsWalking; ").data ++ rest := by
  refine ⟨("Длительность: ").data ++ ((fix3 m.duration).data ++ ((" ч.; Дистанция: ").data
    ++ ((fix3 m.distance).data ++ ((" км; Ср. скорость: ").data ++ ((fix3 m.speed).data
    ++ ((" км/ч; Потрачено ккал: ").data ++ ((fix3 m.calories).data ++ (".").data))))))), ?_⟩
  simp only [InfoMessage.get_message, hm, String.data_append, List.append_assoc]
  rfl

/-- C1: for every `Running` record with positive duration,
`get_spent_calories` returns exactly
`((18 * meanSpeedKmh + 1.79) * weightKg / 1000) * durationHours * 60`
with `meanSpeedKmh = (actionCount * 0.65 / 1000) / durationHours`. -/
theorem running_get_spent_calories_formula (a d w : ℚ) (_hd : 0 < d) :
    Training.get_spent_calories (Training.running a d w) =
      some (((18 * ((a * 0.65 / 1000) / d) + 1.79) * w / 1000) * d * 60) := rfl

theorem running_get_spent_calories_formula_witness :
    (0 : ℚ) < 1 ∧
    Training.get_spent_calories (Training.running 15000 1 75) =
      some (((18 * ((15000 * 0.65 / 1000) / 1) + 1.79) * 75 / 1000) * 1 * 60) :=
  ⟨by norm_num, running_get_spent_calories_formula 15000 1 75 (by norm_num)⟩

/-- C2: for every `SportsWalking` record with positive duration and
nonzero height, `get_spent_calories` returns exactly
`(0.035 * weightKg + (((meanSpeedKmh * 0.278)^2) / (heightCm / 100)) * 0.029 * weightKg)
  * durationHours * 60` with the default distance/duration mean speed. -/
theorem walking_get_spent_calories_formula (a d w h : ℚ) (_hd : 0 < d) (_hh : h ≠ 0) :
    Training.get_spent_calories (Training.sportsWalking a d w h) =
      some ((0.035 * w + ((((a * 0.65 / 1000) / d) * 0.278) ^ 2 / (h / 100)) * 0.029 * w)
              * d * 60) := rfl

theorem walking_get_spent_calories_formula_witness :
    (0 : ℚ) < 1 ∧ (180 : ℚ) ≠ 0 ∧
    Training.get_spent_calories (Training.sportsWalking 9000 1 75 180) =
      some ((0.035 * 75 + ((((9000 * 0.65 / 1000) / 1) * 0.278) ^ 2 / (180 / 100)) * 0.029 * 75)
              * 1 * 60) :=
  ⟨by norm_num, by norm_num,
    walking_get_spent_calories_formula 9000 1 75 180 (by norm_num) (by norm_num)⟩

/-- C3: for every `Swimming` record with positive duration,
`get_mean_speed` returns `poolLengthM * poolLaps / 1000 / durationHours`
(the override of the default rule) and `get_spent_calories` returns
`(that mean speed + 1.1) * 2 * weightKg * durationHours`. -/
theorem swimming_speed_and_calories_formula (a d w lp cp : ℚ) (_hd : 0 < d) :
    Training.get_mean_speed (Training.swimming a d w lp cp) = lp * cp / 1000 / d ∧
    Training.get_spent_calories (Training.swimming a d w lp cp) =
      some ((lp * cp / 1000 / d + 1.1) * 2 * w * d) := ⟨rfl, rfl⟩

theorem swimming_speed_and_calories_formula_witness :
    (0 : ℚ) < 1 ∧
    (Training.get_mean_speed (Training.swimming 720 1 80 25 40) = 25 * 40 / 1000 / 1 ∧
     Training.get_spent_calories (Training.swimming 720 1 80 25 40) =
       some ((25 * 40 / 1000 / 1 + 1.1) * 2 * 80 * 1)) :=
  ⟨by norm_num, swimming_speed_and_calories_formula 720 1 80 25 40 (by norm_num)⟩

/-- C4: for every type code other than the three recognized ones,
`read_package` fails with the lookup error that carries the offending
code in its payload (the `KeyError` of the dictionary lookup, the
source's `InvalidWorkoutType` signal) rather than returning a
workout. -/
theorem read_package_unknown_code (code : String) (data : List ℚ)
    (h1 : code ≠ "SWM") (h2 : code ≠ "RUN") (h3 : code ≠ "WLK") :
    read_package code data = Except.error (PyError.keyError code) := by
  simp [read_package, h1, h2, h3]

theorem read_package_unknown_code_witness :
    ("XYZ" ≠ "SWM" ∧ "XYZ" ≠ "RUN" ∧ "XYZ" ≠ "WLK") ∧
    read_package "XYZ" [1, 2, 3] = Except.error (PyError.keyError "XYZ") :=
  ⟨⟨by decide, by decide, by decide⟩,
    read_package_unknown_code "XYZ" [1, 2, 3] (by decide) (by decide) (by decide)⟩

/-- C5 counterexample: at `("RUN", [1, 2])` the failure `read_package`
produces is the `TypeError` of the positional-argument constructor call
`action_classes[workout_type](*data)` — the error space of the source
holds no explicit `ArityMismatch` validation error at all, so the claim
that the failure comes from explicit validation rather than a
construction crash is false at this input. -/
theorem read_package_short_run_is_construction_crash :
    read_package "RUN" [1, 2] = Except.error PyError.typeError ∧
    ∀ s : String, PyError.typeError ≠ PyError.keyError s :=
  ⟨rfl, fun _ h => PyError.noConfusion h⟩

/-- C5 amended: for each recognized code, `read_package` fails exactly
when the data length differs from the variant's field count (5 for SWM,
3 for RUN, 4 for WLK), and the failure is the unchecked `TypeError` of
the positional-argument construction, not an explicit validation
error. -/
theorem read_package_arity_crash (data : List ℚ) :
    (read_package "SWM" data = Except.error PyError.typeError ↔ data.length ≠ 5) ∧
    (read_package "RUN" data = Except.error PyError.typeError ↔ data.length ≠ 3) ∧
    (read_package "WLK" data = Except.error PyError.typeError ↔ data.length ≠ 4) := by
  rcases data with _ | ⟨a, _ | ⟨b, _ | ⟨c, _ | ⟨d, _ | ⟨e, _ | ⟨f, rest⟩⟩⟩⟩⟩⟩ <;>
    simp [read_package]

/-- C6: the formatter produces exactly the fixed template, each of the
four numeric fields rendered by the fixed-point rule that ends the
string in a decimal point followed by exactly three digits. -/
theorem get_message_template (m : InfoMessage) :
    m.get_message =
      "Тип тренировки: " ++ m.training_type
        ++ "; Длительность: " ++ fix3 m.duration
        ++ " ч.; Дистанция: " ++ fix3 m.distance
        ++ " км; Ср. скорость: " ++ fix3 m.speed
        ++ " км/ч; Потрачено ккал: " ++ fix3 m.calories ++ "." ∧
    has3Decimals (fix3 m.duration) ∧ has3Decimals (fix3 m.distance) ∧
    has3Decimals (fix3 m.speed) ∧ has3Decimals (fix3 m.calories) :=
  ⟨rfl, fix3_has3Decimals _, fix3_has3Decimals _, fix3_has3Decimals _, fix3_has3Decimals _⟩

/-- C7: dispatching `("SWM", [720, 1, 80, 25, 40])` yields the swimming
record whose distance is `720 * 1.38 / 1000` (rendering as `0.994`),
whose mean speed is exactly `1` (rendering as `1.000`) and whose
calories are exactly `336` (rendering as `336.000`). -/
theorem swimming_sample_package :
    read_package "SWM" [720, 1, 80, 25, 40] = Except.ok (Training.swimming 720 1 80 25 40) ∧
    Training.get_distance (Training.swimming 720 1 80 25 40) = 720 * 1.38 / 1000 ∧
    fix3 (Training.get_distance (Training.swimming 720 1 80 25 40)) = "0.994" ∧
    Training.get_mean_speed (Training.swimming 720 1 80 25 40) = 25 * 40 / 1000 / 1 ∧
    Training.get_mean_speed (Training.swimming 720 1 80 25 40) = 1 ∧
    fix3 (Training.get_mean_speed (Training.swimming 720 1 80 25 40)) = "1.000" ∧
    Training.get_spent_calories (Training.swimming 720 1 80 25 40) = some ((1 + 1.1) * 2 * 80 * 1) ∧
    Training.get_spent_calories (Training.swimming 720 1 80 25 40) = some 336 ∧
    fix3 336 = "336.000" := by
  have hspeed : Training.get_mean_speed (Training.swimming 720 1 80 25 40) = 1 := by
    norm_num [Training.get_mean_speed, Training.M_IN_KM]
  have hdist : roundHalfEven (Training.get_distance (Training.swimming 720 1 80 25 40) * 1000)
      = 994 := by
    norm_num [Training.get_distance, Training.action, Training.LEN_STEP, Training.M_IN_KM,
      roundHalfEven]
  have hone : roundHalfEven ((1 : ℚ) * 1000) = 1000 := by norm_num [roundHalfEven]
  have h336 : roundHalfEven ((336 : ℚ) * 1000) = 336000 := by norm_num [roundHalfEven]
  refine ⟨rfl, by norm_num [Training.get_distance, Training.action, Training.LEN_STEP,
            Training.M_IN_KM], ?_, by norm_num [Training.get_mean_speed, Training.M_IN_KM],
          hspeed, ?_, ?_, ?_, ?_⟩
  · simp only [fix3, hdist]
    decide
  · rw [hspeed]
    simp only [fix3, hone]
    decide
  · norm_num [Training.get_spent_calories, hspeed, Training.swimmingCALORIES_MEAN_SPEED_SHIFT,
      Training.swimmingCALORIES_MEAN_SPEED_MULTIPLIER]
  · norm_num [Training.get_spent_calories, hspeed, Training.swimmingCALORIES_MEAN_SPEED_SHIFT,
      Training.swimmingCALORIES_MEAN_SPEED_MULTIPLIER]
  · simp only [fix3, h336]
    decide
/-- C8 counterexample: at `("RUN", [15000, 1, 75])` the computed
calories are exactly `((18 * 9.75 + 1.79) * 75 / 1000) * 1 * 60
= 797.805`, which renders to three decimals as `"797.805"`, not
`"798.000"` as the claim's `≈ 798.000` asserts. -/
theorem running_sample_calories_not_798 :
    read_package "RUN" [15000, 1, 75] = Except.ok (Training.running 15000 1 75) ∧
    Training.get_spent_calories (Training.running 15000 1 75) =
      some (((18 * (39 / 4) + 1.79) * 75 / 1000) * 1 * 60) ∧
    Training.get_spent_calories (Training.running 15000 1 75) = some (159561 / 200) ∧
    fix3 (159561 / 200) = "797.805" ∧
    fix3 (159561 / 200) ≠ "798.000" := by
  have h : roundHalfEven ((159561 / 200 : ℚ) * 1000) = 797805 := by
    norm_num [roundHalfEven]
  have hfix : fix3 (159561 / 200) = "797.805" := by
    simp only [fix3, h]
    decide
  refine ⟨rfl, ?_, ?_, hfix, ?_⟩
  · norm_num [Training.get_spent_calories, Training.get_mean_speed, Training.get_distance,
      Training.action, Training.duration, Training.LEN_STEP, Training.M_IN_KM,
      Training.MIN_IN_H, Training.runningCALORIES_MEAN_SPEED_MULTIPLIER,
      Training.runningCALORIES_MEAN_SPEED_SHIFT]
  · norm_num [Training.get_spent_calories, Training.get_mean_speed, Training.get_distance,
      Training.action, Training.duration, Training.LEN_STEP, Training.M_IN_KM,
      Training.MIN_IN_H, Training.runningCALORIES_MEAN_SPEED_MULTIPLIER,
      Training.runningCALORIES_MEAN_SPEED_SHIFT]
  · rw [hfix]
    decide

/-- C8 amended: dispatching `("RUN", [15000, 1, 75])` yields distance
`9.750` km, mean speed `9.750` km/h, and calories
`((18 * 9.75 + 1.79) * 75 / 1000) * 1 * 60 = 797.805` when rendered to
three decimals. -/
theorem running_sample_package :
    read_package "RUN" [15000, 1, 75] = Except.ok (Training.running 15000 1 75) ∧
    Training.get_distance (Training.running 15000 1 75) = 39 / 4 ∧
    fix3 (Training.get_distance (Training.running 15000 1 75)) = "9.750" ∧
    Training.get_mean_speed (Training.running 15000 1 75) = 39 / 4 ∧
    fix3 (Training.get_mean_speed (Training.running 15000 1 75)) = "9.750" ∧
    Training.get_spent_calories (Training.running 15000 1 75) =
      some (((18 * (39 / 4) + 1.79) * 75 / 1000) * 1 * 60) ∧
    Training.get_spent_calories (Training.running 15000 1 75) = some (159561 / 200) ∧
    fix3 (159561 / 200) = "797.805" := by
  have hdist : Training.get_distance (Training.running 15000 1 75) = 39 / 4 := by
    norm_num [Training.get_distance, Training.action, Training.LEN_STEP, Training.M_IN_KM]
  have hspeed : Training.get_mean_speed (Training.running 15000 1 75) = 39 / 4 := by
    norm_num [Training.get_mean_speed, Training.get_distance, Training.action,
      Training.duration, Training.LEN_STEP, Training.M_IN_KM]
  have h975 : roundHalfEven ((39 / 4 : ℚ) * 1000) = 9750 := by norm_num [roundHalfEven]
  have h797 : roundHalfEven ((159561 / 200 : ℚ) * 1000) = 797805 := by
    norm_num [roundHalfEven]
  refine ⟨rfl, hdist, ?_, hspeed, ?_, ?_, ?_, ?_⟩
  · rw [hdist]; simp only [fix3, h975]; decide
  · rw [hspeed]; simp only [fix3, h975]; decide
  · norm_num [Training.get_spent_calories, hspeed, Training.duration, Training.M_IN_KM,
      Training.MIN_IN_H, Training.runningCALORIES_MEAN_SPEED_MULTIPLIER,
      Training.runningCALORIES_MEAN_SPEED_SHIFT]
  · norm_num [Training.get_spent_calories, hspeed, Training.duration, Training.M_IN_KM,
      Training.MIN_IN_H, Training.runningCALORIES_MEAN_SPEED_MULTIPLIER,
      Training.runningCALORIES_MEAN_SPEED_SHIFT]
  · simp only [fix3, h797]; decide

/-- C9 counterexample: calling `get_spent_calories` on a bare base
`Training` instance returns the value `None` by a normal return — the
body is `pass`, no `NotImplemented` abstract-method fault is raised, so
the claim that it signals a fault rather than returning a value is
false at this input. -/
theorem base_get_spent_calories_returns_none :
    Training.get_spent_calories (Training.base 15000 1 75) = none := rfl

/-- C9 amended: `get_spent_calories` on the base class returns `None`
(a normal return, not an abstract-method fault), and this `None` result
is never reached for any workout produced by the dispatcher from a
recognized type code: every dispatched variant overrides the method and
returns a value. -/
theorem base_calories_none_and_dispatch_overrides :
    (∀ a d w : ℚ, Training.get_spent_calories (Training.base a d w) = none) ∧
    (∀ (code : String) (data : List ℚ) (t : Training),
        read_package code data = Except.ok t →
          ∃ q : ℚ, Training.get_spent_calories t = some q) := by
  refine ⟨fun a d w => rfl, ?_⟩
  intro code data t h
  unfold read_package at h
  split_ifs at h
  · split at h
    · injection h with h2
      subst h2
      exact ⟨_, rfl⟩
    · exact absurd h (by simp)
  · split at h
    · injection h with h2
      subst h2
      exact ⟨_, rfl⟩
    · exact absurd h (by simp)
  · split at h
    · injection h with h2
      subst h2
      exact ⟨_, rfl⟩
    · exact absurd h (by simp)

theorem base_calories_none_and_dispatch_overrides_witness :
    Training.get_spent_calories (Training.base 1 1 1) = none ∧
    ∃ q : ℚ, Training.get_spent_calories (Training.running 15000 1 75) = some q :=
  ⟨base_calories_none_and_dispatch_overrides.1 1 1 1,
   base_calories_none_and_dispatch_overrides.2 "RUN" [15000, 1, 75]
     (Training.running 15000 1 75) rfl⟩

/-- C10: the workout type name placed in the summary is the
implementation class name — `"Running"`, `"SportsWalking"`,
`"Swimming"` — so a walking workout's formatted line begins with
`"Тип тренировки: SportsWalking; "`, not `"WLK"` or `"Walking"`. -/
theorem show_training_info_class_names :
    (∀ a d w h : ℚ, ∃ m : InfoMessage,
        Training.show_training_info (Training.sportsWalking a d w h) = some m ∧
        m.training_type = "SportsWalking" ∧
        ∃ rest : List Char,
          m.get_message.data = ("Тип тренировки: SportsWalking; ").data ++ rest) ∧
    (∀ a d w : ℚ, ∃ m : InfoMessage,
        Training.show_training_info (Training.running a d w) = some m ∧
        m.training_type = "Running") ∧
    (∀ a d w lp cp : ℚ, ∃ m : InfoMessage,
        Training.show_training_info (Training.swimming a d w lp cp) = some m ∧
        m.training_type = "Swimming") := by
  refine ⟨?_, ?_, ?_⟩
  · intro a d w h
    refine ⟨_, rfl, rfl, ?_⟩
    exact get_message_walking_data _ rfl
  · intro a d w
    exact ⟨_, rfl, rfl⟩
  · intro a d w lp cp
    exact ⟨_, rfl, rfl⟩
